import Mathlib

/-!
# Rexecutor: job execution and job state

A shallow embedding of `cmd/rexecutor/main.go`: the job store, the trigger
handler `runCommand`, the query handlers `jobOutput`, `jobResult`,
`jobStatus`, the `reload` handler and the route registration done by `main`.

What lies outside the repository is a parameter of the model:

* `uniuri.NewLen(8)` is the argument `rid` of each handler;
* one execution of an external command through `os/exec` is a `ProcessRun`;
* `configparser.ParseYaml` followed by `SetValuesFromEnvironment` is an
  `Except String Configuration`;
* of `gin.Context` only what the handlers read and write is kept;
* the `gin.Engine` is the list of its registrations, each under the path gin
  joins for it, with the decision `route` it takes for a request.
-/

namespace Rexec

/-! ## Data model (main.go 20-49) -/

/-- EndpointConfig, main.go 32-37. -/
structure EndpointConfig where
  Path : String
  AllowMulti : Bool
  Command : String
  Args : List String
deriving DecidableEq, Repr

/-- Job, main.go 20-28. `OutputPipe` is the content of the `bytes.Buffer`.
`Endpoint` is a pointer in the source; every job of the store is built by
`runCommand` from the endpoint its route was registered with, which `main`
dereferences at registration, so it is never nil and is kept as a value. -/
structure Job where
  JobID : String
  Endpoint : EndpointConfig
  ExitCode : Int
  Running : Bool
  OutputPipe : String
  Output : String
  Pid : Int
deriving DecidableEq, Repr

/-- Jobs, main.go 30: `map[string]*Job`. A Go map holds each key once, so the
store is an association list without duplicate keys. `rce.Jobs[k] = j` is
`AList.insert`, `delete(rce.Jobs, k)` is `AList.erase`, `rce.Jobs[k]` with the
comma-ok form is `AList.lookup`. A write through the `*Job` held by a handler is
an `insert` under the key of that handler. -/
abbrev Jobs := AList (fun _ : String => Job)

/-- Configuration, main.go 39-42. -/
structure Configuration where
  ListenAddress : String
  Endpoints : List EndpointConfig
deriving DecidableEq, Repr

/-- The handlers that `main` registers on the router. -/
inductive HandlerFunc where
  | runCommand (endpoint : EndpointConfig)
  | jobOutput
  | jobResult
  | jobStatus
  | reload
deriving DecidableEq, Repr

/-- One registration on the `gin.Engine`: method, full path, handler. -/
structure RouteInfo where
  Method : String
  Path : String
  Handler : HandlerFunc
deriving DecidableEq, Repr

/-- Rexecutor, main.go 44-49. `JobsDone` is never read or written and is left
out. The router is the list of its registrations, oldest first. -/
structure Rexecutor where
  Config : Configuration
  Router : List RouteInfo
  Jobs : Jobs

/-! ## The request context -/

/-- A value of a `gin.H` rendered by `c.JSON`. -/
inductive Value where
  | str (s : String)
  | job (j : Job)
deriving DecidableEq, Repr

/-- Body of a response: nothing written, text written by `c.String`, or the
object given to `c.JSON`. -/
inductive Body where
  | empty
  | text (s : String)
  | json (h : List (String × Value))
deriving DecidableEq, Repr

/-- The part of `gin.Context` the handlers use: path parameters, the keys set
with `c.Set`, the status code and body written, the errors attached, and the
abort flag read by `c.IsAborted()`. -/
structure Context where
  Params : List (String × String) := []
  Keys : List (String × String) := []
  code : Option Nat := none
  body : Body := Body.empty
  Errors : List String := []
  aborted : Bool := false
deriving DecidableEq, Repr

namespace Context

/-- The call `c.Param(key)`: the value of the path parameter, or the empty string. -/
def Param (c : Context) (key : String) : String :=
  match c.Params.lookup key with
  | some v => v
  | none => ""

/-- The call `c.Set(key, value)`. -/
def Set (c : Context) (key value : String) : Context :=
  { c with Keys := (key, value) :: c.Keys }

/-- The call `c.String(code, format, values...)`, the formatting already done
(named `Text` since `String` is the type of strings). -/
def Text (c : Context) (code : Nat) (s : String) : Context :=
  { c with code := some code, body := Body.text s }

/-- The call `c.JSON(code, obj)`. -/
def JSON (c : Context) (code : Nat) (h : List (String × Value)) : Context :=
  { c with code := some code, body := Body.json h }

/-- The call `c.Abort()`. -/
def Abort (c : Context) : Context :=
  { c with aborted := true }

/-- The call `c.AbortWithError(code, err)`: status written, request aborted,
error attached. -/
def AbortWithError (c : Context) (code : Nat) (err : String) : Context :=
  { c with code := some code, aborted := true, Errors := c.Errors ++ [err] }

end Context

/-! ## One execution of an external command -/

/-- How a process that was started ended (`os.ProcessState`). -/
inductive ProcessState where
  | exited (status : Nat)
  | signaled (signal : String)
deriving DecidableEq, Repr

namespace ProcessState

/-- Success reports whether the process exited with status 0. -/
def Success : ProcessState → Bool
  | exited 0 => true
  | _ => false

/-- ExitCode is the exit status, or -1 when the process was ended by a signal. -/
def ExitCode : ProcessState → Int
  | exited n => (n : Int)
  | signaled _ => -1

/-- The method `String()` of the state, which is also the text of an
`*exec.ExitError`. -/
def Describe : ProcessState → String
  | exited n => "exit status " ++ toString n
  | signaled s => "signal: " ++ s

/-- The result of `cmd.Wait()` for a command whose standard output was taken
with `StdoutPipe`: nil when the process exited with status 0, else an
`*exec.ExitError` carrying the state. -/
def Wait (st : ProcessState) : Option String :=
  if st.Success then none else some st.Describe

end ProcessState

/-- What `os/exec` does with one command. `launchFailed`: `cmd.Start()` returns
an error (executable not found, not permitted, ...) and `cmd.Process` stays nil.
`ran`: the process started with this pid, wrote `stdout` to its standard output
and ended in `state`. -/
inductive ProcessRun where
  | launchFailed (err : String)
  | ran (pid : Int) (stdout : String) (state : ProcessState)
deriving DecidableEq, Repr

/-- What a handler leaves behind: the executor, the context, the commands
`cmd.Start()` was called for, whether the handler ended in a panic instead of
returning, and the `Job` it allocated (if it did) as it last wrote it. -/
structure Outcome where
  rce : Rexecutor
  c : Context
  execs : List (String × List String)
  panicked : Bool
  job : Option Job := none

/-! ## The trigger handler (main.go 113-152) -/

/-- The loop of main.go 117-124: does some registered job have the path of
`endpoint` and an endpoint that does not allow several runs. The loop returns at
the first such job and does nothing else, so the order in which Go walks the map
does not matter. -/
def busy (jobs : Jobs) (endpoint : EndpointConfig) : Bool :=
  jobs.entries.any fun e => e.2.Endpoint.Path == endpoint.Path && !e.2.Endpoint.AllowMulti

/-- The job of main.go 126-128: a zero `Job` with its endpoint and id set. -/
def newJob (endpoint : EndpointConfig) (rid : String) : Job :=
  { JobID := rid, Endpoint := endpoint, ExitCode := 0, Running := false,
    OutputPipe := "", Output := "", Pid := 0 }

/-- The handler returned by `rce.runCommand(endpoint)`, main.go 114-151, for the
request id `rid` and the execution `run` of the command. -/
def runCommand (rce : Rexecutor) (endpoint : EndpointConfig) (rid : String)
    (run : ProcessRun) (c : Context) : Outcome :=
  let c := c.Set "id" rid
  if busy rce.Jobs endpoint then
    { rce := rce
      c := (c.Text 409 "A job for this endpoint is already running.").Abort
      execs := []
      panicked := false }
  else
    -- 126-129
    let job := newJob endpoint rid
    let jobs := rce.Jobs.insert rid job
    -- 135
    let job := { job with Running := true }
    let jobs := jobs.insert rid job
    -- 136-138: the error of cmd.Start() is dropped; cmd.Process.Pid is read
    match run with
    | ProcessRun.launchFailed _ =>
      { rce := { rce with Jobs := jobs }
        c := c
        execs := [(endpoint.Command, endpoint.Args)]
        panicked := true
        job := some job }
    | ProcessRun.ran pid stdout state =>
      let job := { job with OutputPipe := stdout, Pid := pid }
      let jobs := jobs.insert rid job
      -- 139-145
      match state.Wait with
      | some err =>
        { rce := { rce with Jobs := jobs.erase rid }
          c := (c.Text 500
            ("Job " ++ rid ++ " failed: " ++ err ++ "\n" ++ job.OutputPipe)).Abort
          execs := [(endpoint.Command, endpoint.Args)]
          panicked := false
          job := some job }
      | none =>
        -- 146-150
        let job := { job with Running := false, ExitCode := state.ExitCode }
        let jobs := jobs.insert rid job
        { rce := { rce with Jobs := jobs.erase rid }
          c := c.Text 200 ("Job " ++ rid ++ " finished.\n" ++ job.OutputPipe)
          execs := [(endpoint.Command, endpoint.Args)]
          panicked := false
          job := some job }

/-! ## The query handlers (main.go 175-221) -/

/-- jobResult, main.go 175-194. -/
def jobResult (rce : Rexecutor) (rid : String) (c : Context) : Outcome :=
  let jobID := c.Param "jobid"
  let c := c.Set "id" rid
  match rce.Jobs.lookup jobID with
  | some j =>
    let j := { j with Output := j.OutputPipe }
    { rce := { rce with Jobs := rce.Jobs.replace jobID j }
      c := c.JSON 200 [("job", Value.job j), ("message", Value.str "Job results"),
        ("requestID", Value.str rid)]
      execs := []
      panicked := false }
  | none =>
    { rce := rce
      c := c.JSON 404 [("jobID", Value.str jobID), ("message", Value.str "No job found"),
        ("requestID", Value.str rid)]
      execs := []
      panicked := false }

/-- jobOutput, main.go 196-205. -/
def jobOutput (rce : Rexecutor) (rid : String) (c : Context) : Outcome :=
  let jobID := c.Param "jobid"
  let c := c.Set "id" rid
  match rce.Jobs.lookup jobID with
  | some j => { rce := rce, c := c.Text 200 j.OutputPipe, execs := [], panicked := false }
  | none =>
    { rce := rce, c := c.Text 404 ("No job found with id: " ++ jobID), execs := [],
      panicked := false }

/-- jobStatus, main.go 207-221. -/
def jobStatus (rce : Rexecutor) (rid : String) (c : Context) : Outcome :=
  let jobID := c.Param "jobid"
  let c := c.Set "id" rid
  match rce.Jobs.lookup jobID with
  | some j =>
    if j.Running then
      { rce := rce, c := c.Text 200 "Running", execs := [], panicked := false }
    else
      { rce := rce, c := c.Text 200 "Finished", execs := [], panicked := false }
  | none =>
    { rce := rce, c := c.Text 404 ("No job found with id: " ++ jobID), execs := [],
      panicked := false }

/-! ## Reload and routing (main.go 85-101, 154-173) -/

/-- reload, main.go 154-173. `parsed` is what `configparser.ParseYaml` followed
by `SetValuesFromEnvironment` makes of the configuration file: an error, or the
configuration that `appconfig` then holds. The handler assigns `rce.Config` and
nothing else of the executor. The registered handlers hold pointers to the
endpoints read at start; whether the parser, which is not part of the
repository, writes through them is not modelled, and the registrations keep the
endpoints they were made with. -/
def reload (rce : Rexecutor) (rid : String) (parsed : Except String Configuration)
    (c : Context) : Outcome :=
  let c := c.Set "id" rid
  match parsed with
  | Except.error err =>
    { rce := rce, c := c.AbortWithError 500 err, execs := [], panicked := false }
  | Except.ok appconfig =>
    { rce := { rce with Config := appconfig }, c := c, execs := [], panicked := false }

/-- The pieces of a path between its slashes. -/
def splitSlash : List Char → List (List Char)
  | [] => [[]]
  | c :: cs =>
    if c = '/' then [] :: splitSlash cs
    else
      match splitSlash cs with
      | [] => [[c]]
      | seg :: rest => (c :: seg) :: rest

/-- One piece of a rooted path as `path.Clean` of Go treats it: an empty piece
and `.` are dropped, `..` removes the piece before it (none at the root), any
other piece is kept. The pieces kept so far are held last first. -/
def cleanStep (kept : List (List Char)) (seg : List Char) : List (List Char) :=
  if seg = [] ∨ seg = ['.'] then kept
  else if seg = ['.', '.'] then kept.tail
  else seg :: kept

/-- The function `path.Clean` of Go on a rooted path. -/
def Clean (p : String) : String :=
  match (splitSlash p.data).foldl cleanStep [] with
  | [] => "/"
  | kept => String.mk (kept.reverse.foldr (fun seg acc => '/' :: (seg ++ acc)) [])

/-- The function `joinPaths` of gin, by which a router group turns the path
given at a registration into the path it registers: `path.Join` of the base
path and the given path, with the trailing slash of the given path kept. -/
def joinPaths (absolutePath relativePath : String) : String :=
  if relativePath = "" then absolutePath
  else
    let finalPath := Clean (absolutePath ++ "/" ++ relativePath)
    if relativePath.data.getLast? = some '/' ∧ finalPath.data.getLast? ≠ some '/' then
      finalPath ++ "/"
    else finalPath

/-- A registration `rce.Router.GET(relativePath, handler)` or `POST` on the
engine, whose base path is `/`. -/
def handle (method relativePath : String) (handler : HandlerFunc) : RouteInfo :=
  { Method := method, Path := joinPaths "/" relativePath, Handler := handler }

/-- The registrations of main.go 94-101, in the order `main` makes them. -/
def setupRouter (config : Configuration) : List RouteInfo :=
  config.Endpoints.map (fun endpoint =>
    handle "GET" ("/run/" ++ endpoint.Path) (HandlerFunc.runCommand endpoint)) ++
  [ handle "GET" "/output/:jobid" HandlerFunc.jobOutput,
    handle "GET" "/result/:jobid" HandlerFunc.jobResult,
    handle "GET" "/status/:jobid" HandlerFunc.jobStatus,
    handle "POST" "/reload" HandlerFunc.reload ]

/-- The executor that `main` builds (main.go 85-101) from the configuration read
at start. -/
def main (appconfig : Configuration) : Rexecutor :=
  { Config := appconfig, Router := setupRouter appconfig, Jobs := ∅ }

/-- Matching of a request path against a registered path, for the two shapes of
path this program registers: literal characters, and a parameter `:name` that is
the last segment and takes the non-empty rest of the path up to no slash. -/
def matchPath : List Char → List Char → Option (List (String × String))
  | ':' :: name, rest =>
    if rest ≠ [] ∧ '/' ∉ rest then some [(String.mk name, String.mk rest)] else none
  | p :: ps, r :: rs => if p = r then matchPath ps rs else none
  | [], [] => some []
  | _, _ => none

/-- The first registration of the method that matches the path, with the path
parameters. The request path is taken as it is sent. -/
def lookupRoute (router : List RouteInfo) (method path : String) :
    Option (HandlerFunc × List (String × String)) :=
  router.findSome? fun r =>
    if r.Method = method then
      (matchPath r.Path.data path.data).map fun ps => (r.Handler, ps)
    else none

/-- The path with its trailing slash removed, or added when it has none. -/
def toggleSlash (path : String) : String :=
  if 1 < path.data.length ∧ path.data.getLast? = some '/' then String.mk path.data.dropLast
  else path ++ "/"

/-- What the router does with a request. -/
inductive Routed where
  | handler (h : HandlerFunc) (params : List (String × String))
  | redirect (code : Nat) (location : String)
  | notFound
deriving DecidableEq, Repr

/-- The decision of the router for a request: the handler of the matching
registration; else, as `RedirectTrailingSlash` is on in a new engine, a redirect
(301 for GET, 307 otherwise) when the path with its trailing slash toggled has a
registration; else not found, which gin answers with 404. -/
def route (router : List RouteInfo) (method path : String) : Routed :=
  match lookupRoute router method path with
  | some (h, ps) => Routed.handler h ps
  | none =>
    if method ≠ "CONNECT" ∧ path ≠ "/" ∧
        (lookupRoute router method (toggleSlash path)).isSome then
      Routed.redirect (if method = "GET" then 301 else 307) (toggleSlash path)
    else Routed.notFound

/-- Is the request given to a handler. -/
def Routed.isHandler : Routed → Bool
  | Routed.handler _ _ => true
  | _ => false

/-- The middleware `gin.Recovery()` installed by main.go 91: a panic of the
handler is caught and the request is aborted with status 500. -/
def Recovery (o : Outcome) : Outcome :=
  if o.panicked then
    { o with c := { o.c with code := some 500, aborted := true }, panicked := false }
  else o

/-! ## Interleaved trigger handlers

Each request runs in a goroutine of its own and `rce.Jobs` is shared without a
lock. A running `runCommand` is a `Call`; its statements are grouped into the
steps below, each of which touches the store at most once. -/

/-- Where a call of the trigger handler stands. -/
inductive PC where
  | check
  | register
  | setRunning
  | start
  | wait
  | done
deriving DecidableEq, Repr

/-- A call of the handler of `rce.runCommand(endpoint)` in progress: its
closure (`endpoint`), its locals (`rid`, `job`, the context), the execution its
command will have, and its position. -/
structure Call where
  endpoint : EndpointConfig
  rid : String
  run : ProcessRun
  c : Context
  pc : PC
  job : Job
  execs : List (String × List String)
  panicked : Bool

/-- A call about to execute main.go 115. -/
def Call.new (endpoint : EndpointConfig) (rid : String) (run : ProcessRun) (c : Context) :
    Call :=
  { endpoint := endpoint, rid := rid, run := run, c := c, pc := PC.check,
    job := newJob endpoint rid, execs := [], panicked := false }

/-- One step of a call on the shared store.
`check` is main.go 115-124, `register` 126-129, `setRunning` 131-135, `start`
136, and `wait` 137-150: the copy of the output returns when the process has
closed its standard output, then the pid is read, the process is waited for,
the response is written and the job is deleted. -/
def Call.step (jobs : Jobs) (t : Call) : Jobs × Call :=
  match t.pc with
  | PC.check =>
    let c := t.c.Set "id" t.rid
    if busy jobs t.endpoint then
      (jobs, { t with
        c := (c.Text 409 "A job for this endpoint is already running.").Abort
        pc := PC.done })
    else
      (jobs, { t with c := c, pc := PC.register })
  | PC.register =>
    let job := newJob t.endpoint t.rid
    (jobs.insert t.rid job, { t with job := job, pc := PC.setRunning })
  | PC.setRunning =>
    let job := { t.job with Running := true }
    (jobs.insert t.rid job, { t with job := job, pc := PC.start })
  | PC.start =>
    (jobs, { t with execs := [(t.endpoint.Command, t.endpoint.Args)], pc := PC.wait })
  | PC.wait =>
    match t.run with
    | ProcessRun.launchFailed _ => (jobs, { t with panicked := true, pc := PC.done })
    | ProcessRun.ran pid stdout state =>
      let job := { t.job with OutputPipe := stdout, Pid := pid }
      let jobs := jobs.insert t.rid job
      match state.Wait with
      | some err =>
        (jobs.erase t.rid, { t with
          job := job
          c := (t.c.Text 500
            ("Job " ++ t.rid ++ " failed: " ++ err ++ "\n" ++ job.OutputPipe)).Abort
          pc := PC.done })
      | none =>
        let job := { job with Running := false, ExitCode := state.ExitCode }
        let jobs := jobs.insert t.rid job
        (jobs.erase t.rid, { t with
          job := job
          c := t.c.Text 200 ("Job " ++ t.rid ++ " finished.\n" ++ job.OutputPipe)
          pc := PC.done })
  | PC.done => (jobs, t)

/-- Is the process of the call running: started, and not yet waited for. -/
def Call.processRunning (t : Call) : Bool :=
  t.pc = PC.wait && (match t.run with
    | ProcessRun.ran _ _ _ => true
    | ProcessRun.launchFailed _ => false)

/-- Two calls sharing one job store. -/
structure Pair where
  Jobs : Jobs
  first : Call
  second : Call

/-- One step of the pair: the first call moves when the flag is false, the
second when it is true. -/
def Pair.step (s : Pair) (second : Bool) : Pair :=
  if second then
    let r := s.second.step s.Jobs
    { s with Jobs := r.1, second := r.2 }
  else
    let r := s.first.step s.Jobs
    { s with Jobs := r.1, first := r.2 }

/-- The pair after a schedule, a list of who moves next. -/
def Pair.exec (s : Pair) (schedule : List Bool) : Pair :=
  schedule.foldl Pair.step s

/-- A call making `n` steps with no other call in between. -/
def Call.steps : Nat → Jobs → Call → Jobs × Call
  | 0, jobs, t => (jobs, t)
  | n + 1, jobs, t => Call.steps n (t.step jobs).1 (t.step jobs).2

/-! ## The configuration of main_test.go and some stores -/

/-- The endpoint `config.Endpoints[0]` of main_test.go. -/
def testEndpoint : EndpointConfig :=
  { Path := "/test", AllowMulti := false, Command := "echo", Args := ["Test Output"] }

/-- The endpoint `config.Endpoints[1]` of main_test.go: no such executable. -/
def testfailEndpoint : EndpointConfig :=
  { Path := "/testfail", AllowMulti := false, Command := "echoo", Args := ["Test Output"] }

/-- The endpoint `config.Endpoints[2]` of main_test.go. -/
def testfailtimeoutEndpoint : EndpointConfig :=
  { Path := "/testfailtimeout", AllowMulti := false, Command := "curl",
    Args := ["--fail", "--connect-timeout ", "1", "localhostnot"] }

/-- The endpoint `config.Endpoints[3]` of main_test.go. -/
def longrunEndpoint : EndpointConfig :=
  { Path := "/longrun", AllowMulti := false, Command := "sleep", Args := ["1"] }

/-- The configuration `config` of main_test.go. -/
def config : Configuration :=
  { ListenAddress := ":8080"
    Endpoints := [testEndpoint, testfailEndpoint, testfailtimeoutEndpoint, longrunEndpoint] }

/-- The executor of `TestRunCommand`: the test configuration, no route, no job. -/
def testRce : Rexecutor :=
  { Config := config, Router := [], Jobs := ∅ }

/-- An endpoint with the path `/fullBackup`. -/
def fullBackupEndpoint : EndpointConfig :=
  { Path := "/fullBackup", AllowMulti := false, Command := "backup", Args := ["--full"] }

/-- A configuration file whose first endpoint has the path `/fullBackup`, as
`TestReloadConfig` expects of `config.yaml`. -/
def reloadedConfig : Configuration :=
  { ListenAddress := ":8080", Endpoints := [fullBackupEndpoint] }

/-- The run of `echo "Test Output"`. -/
def echoRun : ProcessRun :=
  ProcessRun.ran 4711 "Test Output\n" (ProcessState.exited 0)

/-- The run of a command that is not on the host. -/
def notFoundRun : ProcessRun :=
  ProcessRun.launchFailed "executable file not found in $PATH"

/-- A run that starts, writes nothing and ends with exit status 6. -/
def curlRun : ProcessRun :=
  ProcessRun.ran 4712 "" (ProcessState.exited 6)

/-- The run of `sleep 1`. -/
def sleepRun : ProcessRun :=
  ProcessRun.ran 4713 "" (ProcessState.exited 0)

/-- A job of the long running endpoint that is registered and running. -/
def runningJob : Job :=
  { newJob longrunEndpoint "job00001" with Running := true }

/-- An executor whose store holds `runningJob`. -/
def busyRce : Rexecutor :=
  { Config := config, Router := [], Jobs := AList.singleton "job00001" runningJob }

/-- An executor whose store holds one job of the long running endpoint whose
`Running` flag is false: a job between main.go 129 and 135, or between 146 and
150, of another request. -/
def idleRce : Rexecutor :=
  { Config := config
    Router := []
    Jobs := AList.singleton "job00001" (newJob longrunEndpoint "job00001") }

/-- A context of a status, result or output request for the job `jobID`. -/
def queryContext (jobID : String) : Context :=
  { Params := [("jobid", jobID)] }

/-- Two triggers of the long running endpoint, arriving together at an empty
store. -/
def twoTriggers : Pair :=
  { Jobs := ∅
    first := Call.new longrunEndpoint "aaaaaaaa" sleepRun {}
    second := Call.new longrunEndpoint "bbbbbbbb" sleepRun {} }

/-! ## Facts about the store -/

/-- The loop of `runCommand` finds a job exactly when some registered job has
the path of the endpoint and an endpoint that forbids several runs. -/
theorem busy_iff (jobs : Jobs) (endpoint : EndpointConfig) :
    busy jobs endpoint = true ↔
      ∃ id j, jobs.lookup id = some j ∧ j.Endpoint.Path = endpoint.Path ∧
        j.Endpoint.AllowMulti = false := by
  unfold busy
  rw [List.any_eq_true]
  constructor
  · rintro ⟨⟨id, j⟩, hmem, h⟩
    refine ⟨id, j, AList.mem_lookup_iff.mpr hmem, ?_⟩
    simpa using h
  · rintro ⟨id, j, hl, hp, hm⟩
    exact ⟨⟨id, j⟩, AList.mem_lookup_iff.mp hl, by simp [hp, hm]⟩

/-- Deleting a key just inserted gives back a store that did not hold it. -/
theorem erase_insert_of_not_mem (jobs : Jobs) (rid : String) (j : Job) (h : rid ∉ jobs) :
    (jobs.insert rid j).erase rid = jobs := by
  apply AList.ext
  simp only [AList.erase, AList.insert_entries, List.kerase_cons_eq]
  exact List.kerase_of_not_mem_keys h

/-- A second write under a key does not change what deleting the key leaves. -/
theorem erase_insert_insert (jobs : Jobs) (rid : String) (j k : Job) :
    ((jobs.insert rid j).insert rid k).erase rid = (jobs.insert rid j).erase rid := by
  apply AList.ext
  simp [AList.erase]

/-- The only job a one-job store gives is that job. -/
theorem lookup_singleton_eq (k id : String) (j j0 : Job)
    (h : (AList.singleton k j0 : Jobs).lookup id = some j) : id = k ∧ j = j0 := by
  have hmem := AList.mem_lookup_iff.mp h
  simp only [AList.singleton_entries, List.mem_singleton] at hmem
  cases hmem
  exact ⟨rfl, rfl⟩

/-- The handler is the five steps of a call made with no other call in between. -/
theorem runCommand_eq_steps (rce : Rexecutor) (endpoint : EndpointConfig) (rid : String)
    (run : ProcessRun) (c : Context) :
    (runCommand rce endpoint rid run c).rce.Jobs
        = (Call.steps 5 rce.Jobs (Call.new endpoint rid run c)).1 ∧
      (runCommand rce endpoint rid run c).c
        = (Call.steps 5 rce.Jobs (Call.new endpoint rid run c)).2.c ∧
      (runCommand rce endpoint rid run c).execs
        = (Call.steps 5 rce.Jobs (Call.new endpoint rid run c)).2.execs ∧
      (runCommand rce endpoint rid run c).panicked
        = (Call.steps 5 rce.Jobs (Call.new endpoint rid run c)).2.panicked ∧
      (Call.steps 5 rce.Jobs (Call.new endpoint rid run c)).2.pc = PC.done := by
  by_cases hb : busy rce.Jobs endpoint = true
  · simp [Call.steps, Call.step, Call.new, runCommand, hb]
  · rcases run with err | ⟨pid, out, state⟩
    · simp [Call.steps, Call.step, Call.new, runCommand, hb]
    · cases hw : state.Wait <;>
        simp [Call.steps, Call.step, Call.new, runCommand, hb, hw]

/-! ## The trigger handler: rejection -/

/-- C1: when the store holds a registered, running job whose endpoint has the
path of the triggered endpoint and does not allow several runs, the handler
answers 409 with the body "A job for this endpoint is already running.", aborts
the context, calls `cmd.Start()` for no command, does not panic, and leaves the
executor, hence the job store, as it was. -/
theorem runCommand_busy_conflict (rce : Rexecutor) (endpoint : EndpointConfig) (rid : String)
    (run : ProcessRun) (c : Context) (id : String) (j : Job)
    (hreg : rce.Jobs.lookup id = some j) (hrunning : j.Running = true)
    (hpath : j.Endpoint.Path = endpoint.Path) (hmulti : j.Endpoint.AllowMulti = false) :
    (runCommand rce endpoint rid run c).c.code = some 409 ∧
      (runCommand rce endpoint rid run c).c.body
        = Body.text "A job for this endpoint is already running." ∧
      (runCommand rce endpoint rid run c).c.aborted = true ∧
      (runCommand rce endpoint rid run c).execs = [] ∧
      (runCommand rce endpoint rid run c).panicked = false ∧
      (runCommand rce endpoint rid run c).rce = rce := by
  have _ := hrunning
  have hb : busy rce.Jobs endpoint = true := (busy_iff _ _).mpr ⟨id, j, hreg, hpath, hmulti⟩
  simp [runCommand, hb, Context.Text, Context.Abort, Context.Set]

/-- Witness of C1: a second trigger of the long running endpoint while its job
is registered and running. -/
theorem runCommand_busy_conflict_witness :
    busyRce.Jobs.lookup "job00001" = some runningJob ∧ runningJob.Running = true ∧
      (runCommand busyRce longrunEndpoint "req00002" sleepRun {}).c.code = some 409 ∧
      (runCommand busyRce longrunEndpoint "req00002" sleepRun {}).rce = busyRce :=
  have h := runCommand_busy_conflict busyRce longrunEndpoint "req00002" sleepRun {}
    "job00001" runningJob (by decide) rfl rfl rfl
  ⟨by decide, rfl, h.1, h.2.2.2.2.2⟩

/-- Counterexample to C2 as stated, in its two parts. First, the store holds one
job of the endpoint whose `Running` flag is false, so no registered job of the
path is running, and the trigger is rejected with 409 all the same. Second, a
trigger of another endpoint is accepted with a generated id under which the
store already holds a job: the id is not fresh, the record of that other job is
replaced by the new job, and it is gone once the handler has returned. -/
theorem runCommand_rejects_idle_job :
    ¬ (((runCommand idleRce longrunEndpoint "req00002" sleepRun {}).c.code = some 409 ∧
          (runCommand idleRce longrunEndpoint "req00002" sleepRun {}).execs = []) ↔
        ∃ id j, idleRce.Jobs.lookup id = some j ∧ j.Endpoint.Path = longrunEndpoint.Path ∧
          j.Running = true ∧ longrunEndpoint.AllowMulti = false) ∧
      (busyRce.Jobs.lookup "job00001" = some runningJob ∧
        (runCommand busyRce testEndpoint "job00001" echoRun {}).c.code = some 200 ∧
        (Call.steps 3 busyRce.Jobs (Call.new testEndpoint "job00001" echoRun {})).1.lookup
            "job00001"
          = some { JobID := "job00001", Endpoint := testEndpoint, ExitCode := 0,
                   Running := true, OutputPipe := "", Output := "", Pid := 0 } ∧
        (runCommand busyRce testEndpoint "job00001" echoRun {}).rce.Jobs.lookup "job00001"
          = none) := by
  refine ⟨?_, by decide, by decide, by decide, by decide⟩
  intro h
  obtain ⟨id, j, hl, _, hr, _⟩ := h.mp ⟨by decide, by decide⟩
  obtain ⟨_, hj⟩ := lookup_singleton_eq _ _ _ _ hl
  rw [hj] at hr
  exact absurd hr (by decide)

/-- C2, amended: the trigger is rejected (409, aborted, no command started)
exactly when some registered job, whatever its `Running` flag, has the path of
the endpoint and an endpoint of its own that does not allow several runs; then
the store is unchanged. In every other case the trigger is accepted: after the
steps `check`, `register`, `setRunning` the store is the one before with a job
of the endpoint, `Running` true, written under the id generated for the request
(in place of a record already held under that id, if there is one), and the call
stands before `cmd.Start()`. -/
theorem runCommand_rejects_iff_registered (rce : Rexecutor) (endpoint : EndpointConfig)
    (rid : String) (run : ProcessRun) (c : Context) :
    (((runCommand rce endpoint rid run c).c.code = some 409 ∧
          (runCommand rce endpoint rid run c).c.aborted = true ∧
          (runCommand rce endpoint rid run c).execs = []) ↔
        ∃ id j, rce.Jobs.lookup id = some j ∧ j.Endpoint.Path = endpoint.Path ∧
          j.Endpoint.AllowMulti = false) ∧
      (((∃ id j, rce.Jobs.lookup id = some j ∧ j.Endpoint.Path = endpoint.Path ∧
            j.Endpoint.AllowMulti = false) ∧
          (runCommand rce endpoint rid run c).rce = rce) ∨
        ((¬ ∃ id j, rce.Jobs.lookup id = some j ∧ j.Endpoint.Path = endpoint.Path ∧
            j.Endpoint.AllowMulti = false) ∧
          (Call.steps 3 rce.Jobs (Call.new endpoint rid run c)).1
            = rce.Jobs.insert rid
                { JobID := rid, Endpoint := endpoint, ExitCode := 0, Running := true,
                  OutputPipe := "", Output := "", Pid := 0 } ∧
          (Call.steps 3 rce.Jobs (Call.new endpoint rid run c)).1.lookup rid
            = some { JobID := rid, Endpoint := endpoint, ExitCode := 0, Running := true,
                     OutputPipe := "", Output := "", Pid := 0 } ∧
          (Call.steps 3 rce.Jobs (Call.new endpoint rid run c)).2.pc = PC.start ∧
          (runCommand rce endpoint rid run c).execs = [(endpoint.Command, endpoint.Args)])) := by
  rw [← busy_iff]
  by_cases hb : busy rce.Jobs endpoint = true
  · refine ⟨?_, Or.inl ⟨hb, ?_⟩⟩ <;>
      simp [runCommand, hb, Context.Text, Context.Abort, Context.Set]
  · refine ⟨?_, Or.inr ⟨hb, ?_, ?_, ?_, ?_⟩⟩
    · rcases run with err | ⟨pid, out, state⟩
      · simp [runCommand, hb]
      · cases hw : state.Wait <;> simp [runCommand, hb, hw]
    · simp [Call.steps, Call.step, Call.new, hb, newJob, AList.insert_insert]
    · simp [Call.steps, Call.step, Call.new, hb, newJob, AList.lookup_insert]
    · simp [Call.steps, Call.step, Call.new, hb]
    · rcases run with err | ⟨pid, out, state⟩
      · simp [runCommand, hb]
      · cases hw : state.Wait <;> simp [runCommand, hb, hw]

/-! ## Two triggers at once -/

/-- C3, evaluated at the failing schedule: two triggers of the long running
endpoint (`allowMulti` false) meet an empty store and move in turn. Both pass
the loop before either registers its job, so after eight steps both jobs are
registered with `Running` true and both processes are running; when both calls
are done each has answered 200, neither 409, and neither context is aborted. -/
theorem concurrent_triggers_both_run :
    (twoTriggers.exec [false, true, false, true, false, true, false, true]).first.processRunning
        = true ∧
      (twoTriggers.exec [false, true, false, true, false, true, false, true]).second.processRunning
        = true ∧
      ((twoTriggers.exec [false, true, false, true, false, true, false, true]).Jobs.lookup
        "aaaaaaaa").map Job.Running = some true ∧
      ((twoTriggers.exec [false, true, false, true, false, true, false, true]).Jobs.lookup
        "bbbbbbbb").map Job.Running = some true ∧
      (twoTriggers.exec
        [false, true, false, true, false, true, false, true, false, true]).first.c.code
        = some 200 ∧
      (twoTriggers.exec
        [false, true, false, true, false, true, false, true, false, true]).second.c.code
        = some 200 ∧
      (twoTriggers.exec
        [false, true, false, true, false, true, false, true, false, true]).first.c.aborted
        = false ∧
      (twoTriggers.exec
        [false, true, false, true, false, true, false, true, false, true]).second.c.aborted
        = false := by
  decide

/-! ## The trigger handler: outcomes of an accepted trigger -/

/-- C4: a trigger that is not blocked, whose command starts, writes `stdout` and
exits successfully, is answered 200 with the body "Job <id> finished." followed
by a line feed and the whole of `stdout`; the handler does not touch the abort
flag and does not panic. -/
theorem runCommand_success (rce : Rexecutor) (endpoint : EndpointConfig) (rid : String)
    (c : Context) (pid : Int) (stdout : String) (state : ProcessState)
    (hfree : busy rce.Jobs endpoint = false) (hexit : state.Success = true) :
    (runCommand rce endpoint rid (ProcessRun.ran pid stdout state) c).c.code = some 200 ∧
      (runCommand rce endpoint rid (ProcessRun.ran pid stdout state) c).c.body
        = Body.text ("Job " ++ rid ++ " finished.\n" ++ stdout) ∧
      (runCommand rce endpoint rid (ProcessRun.ran pid stdout state) c).c.aborted = c.aborted ∧
      (runCommand rce endpoint rid (ProcessRun.ran pid stdout state) c).panicked = false := by
  have hw : state.Wait = none := by simp [ProcessState.Wait, hexit]
  simp [runCommand, hfree, hw, Context.Text, Context.Set]

/-- Witness of C4: the test "run command success", `echo "Test Output"` on the
empty store with a fresh context. -/
theorem runCommand_success_witness :
    busy testRce.Jobs testEndpoint = false ∧
      (runCommand testRce testEndpoint "req00001" echoRun {}).c.code = some 200 ∧
      (runCommand testRce testEndpoint "req00001" echoRun {}).c.body
        = Body.text "Job req00001 finished.\nTest Output\n" ∧
      (runCommand testRce testEndpoint "req00001" echoRun {}).c.aborted = false :=
  have h := runCommand_success testRce testEndpoint "req00001" {} 4711 "Test Output\n"
    (ProcessState.exited 0) (by decide) rfl
  ⟨by decide, h.1, h.2.1, h.2.2.1⟩

/-- C5, evaluated at the failing input: the test "run command not found",
`echoo` on the empty store. The error of `cmd.Start()` is dropped and
`cmd.Process.Pid` is read from a nil `cmd.Process`: the handler panics. It has
written no status and no body and has not aborted the context; the job stays in
the store with `Running` true, and the next trigger of the same endpoint is
rejected with 409. Under `gin.Recovery()` the panic becomes an aborted request
with status 500 and an empty body, and the job stays all the same. -/
theorem runCommand_launch_failure_panics :
    (runCommand testRce testfailEndpoint "req00001" notFoundRun {}).panicked = true ∧
      (runCommand testRce testfailEndpoint "req00001" notFoundRun {}).c.code = none ∧
      (runCommand testRce testfailEndpoint "req00001" notFoundRun {}).c.body = Body.empty ∧
      (runCommand testRce testfailEndpoint "req00001" notFoundRun {}).c.aborted = false ∧
      ((runCommand testRce testfailEndpoint "req00001" notFoundRun {}).rce.Jobs.lookup
        "req00001").map Job.Running = some true ∧
      (runCommand (runCommand testRce testfailEndpoint "req00001" notFoundRun {}).rce
        testfailEndpoint "req00002" notFoundRun {}).c.code = some 409 ∧
      (Recovery (runCommand testRce testfailEndpoint "req00001" notFoundRun {})).c.code
        = some 500 ∧
      (Recovery (runCommand testRce testfailEndpoint "req00001" notFoundRun {})).c.body
        = Body.empty ∧
      ((Recovery (runCommand testRce testfailEndpoint "req00001" notFoundRun
        {})).rce.Jobs.lookup "req00001").map Job.Running = some true := by
  decide

/-- Counterexample to C6 as stated: a command that starts, as the one of the test
"run command fail" does, and exits with status 6; the handler answers 500, not
200, and aborts the context. -/
theorem runCommand_nonzero_exit_fails :
    (runCommand testRce testfailtimeoutEndpoint "req00001" curlRun {}).c.code = some 500 ∧
      (runCommand testRce testfailtimeoutEndpoint "req00001" curlRun {}).c.body
        = Body.text "Job req00001 failed: exit status 6\n" ∧
      (runCommand testRce testfailtimeoutEndpoint "req00001" curlRun {}).c.aborted = true := by
  decide

/-- C6, amended: for a trigger that is not blocked and whose command starts,
exit status 0 is the one status reported as success: the handler answers 200
with "Job <id> finished.", a line feed and the whole captured output, leaves the
abort flag alone, and the job it wrote last has `Running` false and the exit
code 0 of the process. Every other status `n + 1` is answered 500 with
"Job <id> failed: exit status <n + 1>", a line feed and the output, with the
context aborted. -/
theorem runCommand_exit_status (rce : Rexecutor) (endpoint : EndpointConfig) (rid : String)
    (c : Context) (pid : Int) (stdout : String) (n : Nat)
    (hfree : busy rce.Jobs endpoint = false) :
    ((runCommand rce endpoint rid (ProcessRun.ran pid stdout (ProcessState.exited 0)) c).c.code
        = some 200 ∧
      (runCommand rce endpoint rid (ProcessRun.ran pid stdout (ProcessState.exited 0)) c).c.body
        = Body.text ("Job " ++ rid ++ " finished.\n" ++ stdout) ∧
      (runCommand rce endpoint rid (ProcessRun.ran pid stdout (ProcessState.exited 0))
        c).c.aborted = c.aborted ∧
      (runCommand rce endpoint rid (ProcessRun.ran pid stdout (ProcessState.exited 0)) c).job
        = some { JobID := rid, Endpoint := endpoint, ExitCode := 0, Running := false,
                 OutputPipe := stdout, Output := "", Pid := pid }) ∧
    ((runCommand rce endpoint rid (ProcessRun.ran pid stdout (ProcessState.exited (n + 1)))
        c).c.code = some 500 ∧
      (runCommand rce endpoint rid (ProcessRun.ran pid stdout (ProcessState.exited (n + 1)))
        c).c.body
        = Body.text ("Job " ++ rid ++ " failed: exit status " ++ toString (n + 1) ++ "\n"
            ++ stdout) ∧
      (runCommand rce endpoint rid (ProcessRun.ran pid stdout (ProcessState.exited (n + 1)))
        c).c.aborted = true) := by
  constructor
  · simp [runCommand, hfree, ProcessState.Wait, ProcessState.Success, ProcessState.ExitCode,
      Context.Text, Context.Set, newJob]
  · have hs : ∀ x : String,
        " failed: " ++ ("exit status " ++ x) = " failed: exit status " ++ x := by
      intro x
      rw [← String.append_assoc]
      rfl
    simp [runCommand, hfree, ProcessState.Wait, ProcessState.Success, ProcessState.Describe,
      Context.Text, Context.Abort, Context.Set, newJob, String.append_assoc, hs]

/-- Witness of C6, amended: `echo` exiting with 0 and with 1 on the empty store. -/
theorem runCommand_exit_status_witness :
    busy testRce.Jobs testEndpoint = false ∧
      (runCommand testRce testEndpoint "req00001"
        (ProcessRun.ran 4711 "Test Output\n" (ProcessState.exited 0)) {}).c.code = some 200 ∧
      (runCommand testRce testEndpoint "req00001"
        (ProcessRun.ran 4711 "Test Output\n" (ProcessState.exited (0 + 1))) {}).c.code
        = some 500 :=
  have h := runCommand_exit_status testRce testEndpoint "req00001" {} 4711 "Test Output\n" 0
    (by decide)
  ⟨by decide, h.1.1, h.2.1⟩

/-- C7: a trigger that is not blocked, whose command starts and writes `stdout`,
and for which `cmd.Wait()` reports the error `e`, is answered 500 with the body
"Job <id> failed: <e>", a line feed and `stdout`, and the context is aborted. -/
theorem runCommand_wait_error (rce : Rexecutor) (endpoint : EndpointConfig) (rid : String)
    (c : Context) (pid : Int) (stdout : String) (state : ProcessState) (e : String)
    (hfree : busy rce.Jobs endpoint = false) (hwait : state.Wait = some e) :
    (runCommand rce endpoint rid (ProcessRun.ran pid stdout state) c).c.code = some 500 ∧
      (runCommand rce endpoint rid (ProcessRun.ran pid stdout state) c).c.body
        = Body.text ("Job " ++ rid ++ " failed: " ++ e ++ "\n" ++ stdout) ∧
      (runCommand rce endpoint rid (ProcessRun.ran pid stdout state) c).c.aborted = true ∧
      (runCommand rce endpoint rid (ProcessRun.ran pid stdout state) c).panicked = false := by
  simp [runCommand, hfree, hwait, Context.Text, Context.Abort, Context.Set]

/-- Witness of C7: a command that starts and ends with exit status 6. -/
theorem runCommand_wait_error_witness :
    busy testRce.Jobs testfailtimeoutEndpoint = false ∧
      (ProcessState.exited 6).Wait = some "exit status 6" ∧
      (runCommand testRce testfailtimeoutEndpoint "req00001" curlRun {}).c.body
        = Body.text ("Job " ++ "req00001" ++ " failed: " ++ "exit status 6" ++ "\n" ++ "") ∧
      (runCommand testRce testfailtimeoutEndpoint "req00001" curlRun {}).c.aborted = true :=
  have h := runCommand_wait_error testRce testfailtimeoutEndpoint "req00001" {} 4712 ""
    (ProcessState.exited 6) "exit status 6" (by decide) (by decide)
  ⟨by decide, by decide, h.2.1, h.2.2.1⟩

/-! ## The job record is transient -/

/-- An accepted trigger whose id is not yet in the store and whose handler
returns, with success (200) or with failure (500), has deleted its job: the
executor, hence the job store, is again what it was before the trigger, and the
status, result and output queries for that id are all answered 404. -/
theorem runCommand_returns_job_deleted (rce : Rexecutor) (endpoint : EndpointConfig)
    (rid : String) (run : ProcessRun) (c : Context) (qid : String) (q : Context)
    (hfresh : rid ∉ rce.Jobs) (hfree : busy rce.Jobs endpoint = false)
    (hdone : (runCommand rce endpoint rid run c).panicked = false)
    (hq : q.Param "jobid" = rid) :
    (runCommand rce endpoint rid run c).rce = rce ∧
      ((runCommand rce endpoint rid run c).c.code = some 200 ∨
        (runCommand rce endpoint rid run c).c.code = some 500) ∧
      (jobStatus (runCommand rce endpoint rid run c).rce qid q).c.code = some 404 ∧
      (jobResult (runCommand rce endpoint rid run c).rce qid q).c.code = some 404 ∧
      (jobOutput (runCommand rce endpoint rid run c).rce qid q).c.code = some 404 := by
  have hnone : rce.Jobs.lookup (q.Param "jobid") = none := by
    rw [hq]
    exact AList.lookup_eq_none.mpr hfresh
  have hback : (runCommand rce endpoint rid run c).rce = rce := by
    rcases run with err | ⟨pid, out, state⟩
    · simp [runCommand, hfree] at hdone
    · cases hw : state.Wait <;>
        simp [runCommand, hfree, hw, erase_insert_insert, erase_insert_of_not_mem _ _ _ hfresh]
  refine ⟨hback, ?_, ?_, ?_, ?_⟩
  · rcases run with err | ⟨pid, out, state⟩
    · simp [runCommand, hfree] at hdone
    · cases hw : state.Wait <;>
        simp [runCommand, hfree, hw, Context.Text, Context.Abort, Context.Set]
  · rw [hback]
    simp [jobStatus, hnone, Context.Text, Context.Set]
  · rw [hback]
    simp [jobResult, hnone, Context.JSON, Context.Set]
  · rw [hback]
    simp [jobOutput, hnone, Context.Text, Context.Set]

/-- C8, evaluated at the failing input: an accepted trigger on the empty store,
with an id the store does not hold, whose command cannot be started. The
handler panics at the read of `cmd.Process.Pid`, before either `delete`; under
`gin.Recovery()` the request is completed with status 500. The record is not
deleted: the store is no longer the empty store it was, the job is registered
with `Running` true, and the status, result and output queries for its id are
answered 200, the status being "Running", not 404. -/
theorem launch_failure_keeps_job :
    "req00001" ∉ testRce.Jobs ∧
      busy testRce.Jobs testfailEndpoint = false ∧
      (Recovery (runCommand testRce testfailEndpoint "req00001" notFoundRun {})).panicked
        = false ∧
      (Recovery (runCommand testRce testfailEndpoint "req00001" notFoundRun {})).c.code
        = some 500 ∧
      (Recovery (runCommand testRce testfailEndpoint "req00001" notFoundRun {})).rce.Jobs.keys
        = ["req00001"] ∧
      (Recovery (runCommand testRce testfailEndpoint "req00001" notFoundRun {})).rce.Jobs.lookup
          "req00001"
        = some { JobID := "req00001", Endpoint := testfailEndpoint, ExitCode := 0,
                 Running := true, OutputPipe := "", Output := "", Pid := 0 } ∧
      (jobStatus (Recovery (runCommand testRce testfailEndpoint "req00001" notFoundRun {})).rce
        "req00002" (queryContext "req00001")).c.code = some 200 ∧
      (jobStatus (Recovery (runCommand testRce testfailEndpoint "req00001" notFoundRun {})).rce
        "req00002" (queryContext "req00001")).c.body = Body.text "Running" ∧
      (jobResult (Recovery (runCommand testRce testfailEndpoint "req00001" notFoundRun {})).rce
        "req00002" (queryContext "req00001")).c.code = some 200 ∧
      (jobOutput (Recovery (runCommand testRce testfailEndpoint "req00001" notFoundRun {})).rce
        "req00002" (queryContext "req00001")).c.code = some 200 := by
  decide

/-! ## The status query -/

/-- C9: the status query answers every request without a panic and without
starting a command: 200 "Running" when the id is registered and the job has
`Running` true, 200 "Finished" when the id is registered and `Running` is false,
and 404 exactly when the id is not registered; the executor, hence the job
store, is left as it was. -/
theorem jobStatus_two_valued (rce : Rexecutor) (rid : String) (c : Context) :
    (∀ j, rce.Jobs.lookup (c.Param "jobid") = some j → j.Running = true →
        (jobStatus rce rid c).c.code = some 200 ∧
          (jobStatus rce rid c).c.body = Body.text "Running") ∧
      (∀ j, rce.Jobs.lookup (c.Param "jobid") = some j → j.Running = false →
        (jobStatus rce rid c).c.code = some 200 ∧
          (jobStatus rce rid c).c.body = Body.text "Finished") ∧
      ((jobStatus rce rid c).c.code = some 404 ↔ c.Param "jobid" ∉ rce.Jobs) ∧
      (jobStatus rce rid c).rce = rce ∧
      (jobStatus rce rid c).panicked = false ∧
      (jobStatus rce rid c).execs = [] := by
  refine ⟨?_, ?_, ?_, ?_, ?_, ?_⟩
  · intro j hj hr
    simp [jobStatus, hj, hr, Context.Text, Context.Set]
  · intro j hj hr
    simp [jobStatus, hj, hr, Context.Text, Context.Set]
  · rw [← AList.lookup_eq_none]
    cases hl : rce.Jobs.lookup (c.Param "jobid") with
    | none => simp [jobStatus, hl, Context.Text, Context.Set]
    | some j => cases hr : j.Running <;> simp [jobStatus, hl, hr, Context.Text, Context.Set]
  · cases hl : rce.Jobs.lookup (c.Param "jobid") with
    | none => simp [jobStatus, hl]
    | some j => cases hr : j.Running <;> simp [jobStatus, hl, hr]
  · cases hl : rce.Jobs.lookup (c.Param "jobid") with
    | none => simp [jobStatus, hl]
    | some j => cases hr : j.Running <;> simp [jobStatus, hl, hr]
  · cases hl : rce.Jobs.lookup (c.Param "jobid") with
    | none => simp [jobStatus, hl]
    | some j => cases hr : j.Running <;> simp [jobStatus, hl, hr]

/-- Witness of C9: a running job, a registered job that is not running, and an
unknown id. -/
theorem jobStatus_two_valued_witness :
    (jobStatus busyRce "req00002" (queryContext "job00001")).c.body = Body.text "Running" ∧
      (jobStatus idleRce "req00002" (queryContext "job00001")).c.body
        = Body.text "Finished" ∧
      (jobStatus busyRce "req00002" (queryContext "job00009")).c.code = some 404 :=
  ⟨((jobStatus_two_valued busyRce "req00002" (queryContext "job00001")).1 runningJob
      (by decide) rfl).2,
    ((jobStatus_two_valued idleRce "req00002" (queryContext "job00001")).2.1
      (newJob longrunEndpoint "job00001") (by decide) rfl).2,
    (jobStatus_two_valued busyRce "req00002" (queryContext "job00009")).2.2.1.mpr
      (by decide)⟩

/-! ## Reload -/

/-- Counterexample to C10 as stated: the server is started with the test
configuration, whose routes `main` registers as `/run/test`, `/run/testfail`,
and so on, and then reloads a file whose endpoint is `/fullBackup`. The active
configuration has the new path, but the router is the one `main` set up: a
trigger for the new path, `GET /run/fullBackup`, finds no route (404), and a
trigger for the old path, `GET /run/test`, is still given to the handler
registered for it at start. -/
theorem reload_keeps_routes :
    (reload (main config) "req00001" (Except.ok reloadedConfig) {}).rce.Config.Endpoints.map
        EndpointConfig.Path = ["/fullBackup"] ∧
      (reload (main config) "req00001" (Except.ok reloadedConfig) {}).rce.Router
        = (main config).Router ∧
      ((main config).Router.map RouteInfo.Path).take 4
        = ["/run/test", "/run/testfail", "/run/testfailtimeout", "/run/longrun"] ∧
      route (reload (main config) "req00001" (Except.ok reloadedConfig) {}).rce.Router
        "GET" "/run/fullBackup" = Routed.notFound ∧
      (route (reload (main config) "req00001" (Except.ok reloadedConfig) {}).rce.Router
        "GET" "/run/test").isHandler = true := by
  decide

/-- C10, amended: after a successful reload the active configuration is the one
read from the file, so its endpoint paths are those of the file, and the job
store is the one before the reload; the handler writes no response of its own,
does not abort and does not panic. -/
theorem reload_sets_config (rce : Rexecutor) (rid : String) (appconfig : Configuration)
    (c : Context) :
    (reload rce rid (Except.ok appconfig) c).rce.Config = appconfig ∧
      (reload rce rid (Except.ok appconfig) c).rce.Config.Endpoints.map EndpointConfig.Path
        = appconfig.Endpoints.map EndpointConfig.Path ∧
      (reload rce rid (Except.ok appconfig) c).rce.Jobs = rce.Jobs ∧
      (reload rce rid (Except.ok appconfig) c).c.code = c.code ∧
      (reload rce rid (Except.ok appconfig) c).c.aborted = c.aborted ∧
      (reload rce rid (Except.ok appconfig) c).panicked = false := by
  simp [reload, Context.Set]

end Rexec
